import Mathlib

/-!
Shallow embedding of the presto_exporter Collect pipeline from
src/presto_exporter.go.

HTTP transport and the Go standard library JSON decoder are environment
effects: each upstream stage is modelled by its observable outcome
(transport error, status code, body read result, decode result), which
mirrors the four checks the source performs per stage in order
(http.Get error, StatusCode check, ioutil.ReadAll error, json.Unmarshal
error). Numeric JSON values are modelled exactly as rationals; the
float32 rounding performed by strconv.ParseFloat and strconv.FormatFloat
with bitSize 32 is abstracted to exact arithmetic on the decimal content.
-/

namespace PrestoExporter

/-- Model of the source constant namespace = "presto_cluster". -/
def namespaceStr : String := "presto_cluster"

/-- Model of prometheus.BuildFQName: joins the nonempty components with
underscores; an empty metric name yields the empty string. -/
def BuildFQName (ns subsystem name : String) : String :=
  if name = "" then ""
  else if ns ≠ "" ∧ subsystem ≠ "" then ns ++ "_" ++ subsystem ++ "_" ++ name
  else if ns ≠ "" then ns ++ "_" ++ name
  else if subsystem ≠ "" then subsystem ++ "_" ++ name
  else name

/-- A prometheus metric descriptor as built by prometheus.NewDesc: the
fully qualified metric name, the help text and the variable label names. -/
structure Desc where
  fqName : String
  help : String
  variableLabels : List String
deriving DecidableEq, Repr

/-- Descriptor runningQueries (source lines 89 to 93). -/
def runningQueries : Desc :=
  ⟨BuildFQName namespaceStr "" "running_queries",
   "Running requests of the presto cluster.", ["hostname"]⟩

/-- Descriptor blockedQueries (source lines 94 to 98). -/
def blockedQueries : Desc :=
  ⟨BuildFQName namespaceStr "" "blocked_queries",
   "Blocked queries of the presto cluster.", ["hostname"]⟩

/-- Descriptor queuedQueries (source lines 99 to 103). -/
def queuedQueries : Desc :=
  ⟨BuildFQName namespaceStr "" "queued_queries",
   "Queued queries of the presto cluster.", ["hostname"]⟩

/-- Descriptor activeWorkers (source lines 104 to 108). -/
def activeWorkers : Desc :=
  ⟨BuildFQName namespaceStr "" "active_workers",
   "Active workers of the presto cluster.", ["hostname"]⟩

/-- Descriptor runningDrivers (source lines 109 to 113). -/
def runningDrivers : Desc :=
  ⟨BuildFQName namespaceStr "" "running_drivers",
   "Running drivers of the presto cluster.", ["hostname"]⟩

/-- Descriptor reservedMemory (source lines 114 to 118). -/
def reservedMemory : Desc :=
  ⟨BuildFQName namespaceStr "" "reserved_memory",
   "Reserved memory of the presto cluster.", ["hostname"]⟩

/-- Descriptor totalInputRows (source lines 119 to 123). -/
def totalInputRows : Desc :=
  ⟨BuildFQName namespaceStr "" "total_input_rows",
   "Total input rows of the presto cluster.", ["hostname"]⟩

/-- Descriptor totalInputBytes (source lines 124 to 128). -/
def totalInputBytes : Desc :=
  ⟨BuildFQName namespaceStr "" "total_input_bytes",
   "Total input bytes of the presto cluster.", ["hostname"]⟩

/-- Descriptor totalCpuTimeSecs (source lines 129 to 133). -/
def totalCpuTimeSecs : Desc :=
  ⟨BuildFQName namespaceStr "" "total_cpu_time_secs",
   "Total cpu time of the presto cluster.", ["hostname"]⟩

/-- Descriptor uptime (source lines 134 to 138). -/
def uptime : Desc :=
  ⟨BuildFQName namespaceStr "" "uptime",
   "Total up time of the presto cluster.", ["hostname"]⟩

/-- Descriptor querys (source lines 140 to 144), with its 14 variable
labels exactly as listed in the source, including the capitalised
PeakUserMemoryReservation label. -/
def querys : Desc :=
  ⟨BuildFQName namespaceStr "" "querys",
   "Querys of the presto cluster.",
   ["hostname", "queryId", "state", "scheduled", "query", "queuedTime",
    "elapsedTime", "executionTime", "totalDrivers", "rawInputDataSize",
    "cumulativeUserMemory", "PeakUserMemoryReservation", "totalCpuTime",
    "totalScheduledTime"]⟩

/-- The Describe method (source lines 148 to 160): it sends exactly these
eleven descriptors on the channel, in this order. Modelled as the list of
descriptors sent. -/
def Describe : List Desc :=
  [runningQueries, blockedQueries, queuedQueries, activeWorkers,
   runningDrivers, reservedMemory, totalInputRows, totalInputBytes,
   totalCpuTimeSecs, uptime, querys]

/-- Decoded shape of the /v1/cluster JSON body (source lines 44 to 54).
The nine float64 fields are modelled as exact rationals. -/
structure ClusterExporter where
  RunningQueries : ℚ
  BlockedQueries : ℚ
  QueuedQueries : ℚ
  ActiveWorkers : ℚ
  RunningDrivers : ℚ
  ReservedMemory : ℚ
  TotalInputRows : ℚ
  TotalInputBytes : ℚ
  TotalCpuTimeSecs : ℚ
deriving DecidableEq, Repr

/-- Nested nodeVersion object of the /v1/info body (source lines 57 to 59). -/
structure NodeVersion where
  Version : String
deriving DecidableEq, Repr

/-- Decoded shape of the /v1/info JSON body (source lines 56 to 64). -/
structure InfoExporter where
  NodeVersion : NodeVersion
  Environment : String
  Coordinator : Bool
  Starting : Bool
  Uptime : String
deriving DecidableEq, Repr

/-- Nested queryStats object of one query record (source lines 71 to 81). -/
structure QueryStats where
  QueuedTime : String
  ElapsedTime : String
  ExecutionTime : String
  TotalDrivers : Int
  RawInputDataSize : String
  CumulativeUserMemory : ℚ
  PeakUserMemoryReservation : String
  TotalCpuTime : String
  TotalScheduledTime : String
deriving DecidableEq, Repr

/-- Decoded shape of one element of the /v1/query JSON array (source lines
66 to 82). -/
structure Query where
  QueryId : String
  State : String
  Scheduled : Bool
  Query : String
  QueryStats : QueryStats
deriving DecidableEq, Repr

/-- Model of strconv.FormatBool. -/
def FormatBool (b : Bool) : String := if b then "true" else "false"

/-- Model of strconv.Itoa: decimal text of the integer, with a leading
minus sign when negative. -/
def Itoa (i : Int) : String := toString i

/-- Numeric value of an ASCII digit character. -/
def digitVal (c : Char) : Nat := c.toNat - 48

/-- Splits a leading run of ASCII digits from the rest of the input. -/
def takeDigits : List Char → List Char × List Char
  | [] => ([], [])
  | c :: cs =>
    if c.isDigit then
      let (ds, rest) := takeDigits cs
      (c :: ds, rest)
    else ([], c :: cs)

/-- Value of a digit run read as a base 10 natural number. -/
def digitsToNat (ds : List Char) : Nat :=
  ds.foldl (fun a c => a * 10 + digitVal c) 0

/-- Reads an optional leading sign; returns whether the value is negated
and the remaining input. -/
def parseSign : List Char → Bool × List Char
  | '+' :: cs => (false, cs)
  | '-' :: cs => (true, cs)
  | cs => (false, cs)

/-- Reads the mantissa part of a Go decimal floating point literal:
digits with an optional decimal point; at least one digit must be
present on one side of the point. Returns the integer part value, the
fraction part value, the fraction digit count and the remaining input,
or none when no digit is found. -/
def parseMantissa (s : List Char) : Option ((Nat × Nat × Nat) × List Char) :=
  let (ip, r1) := takeDigits s
  match r1 with
  | '.' :: r2 =>
    let (fp, r3) := takeDigits r2
    if ip.isEmpty ∧ fp.isEmpty then none
    else some ((digitsToNat ip, digitsToNat fp, fp.length), r3)
  | _ => if ip.isEmpty then none else some ((digitsToNat ip, 0, 0), r1)

/-- Reads an optional decimal exponent: e or E, an optional sign and at
least one digit. When no e or E is present the exponent is zero and the
input is left untouched; a malformed exponent fails the parse. -/
def parseExp (s : List Char) : Option (Int × List Char) :=
  match s with
  | [] => some (0, [])
  | c :: cs =>
    if c = 'e' ∨ c = 'E' then
      let (neg, r1) := parseSign cs
      let (ds, r2) := takeDigits r1
      if ds.isEmpty then none
      else some ((if neg then -(digitsToNat ds : Int) else (digitsToNat ds : Int)), r2)
    else some (0, c :: cs)

/-- The parts of a syntactically valid decimal floating point literal:
sign, integer part, fraction part with its digit count, and the decimal
exponent. -/
structure DecLit where
  neg : Bool
  intPart : Nat
  fracPart : Nat
  fracLen : Nat
  exp10 : Int
deriving DecidableEq, Repr

/-- Exact rational value of a decimal literal: the signed mantissa times
ten to the exponent, built as one integer quotient. -/
def DecLit.toRat (l : DecLit) : ℚ :=
  let mag : Int := (l.intPart * 10 ^ l.fracLen + l.fracPart : Nat)
  let num : Int := (if l.neg then -mag else mag) * 10 ^ l.exp10.toNat
  let den : Nat := 10 ^ l.fracLen * 10 ^ (-l.exp10).toNat
  Rat.divInt num den

/-- Parses the decimal syntax accepted by strconv.ParseFloat: optional
sign, mantissa, optional exponent, and the whole input must be
consumed. Returns the parts of the literal, or none on a syntax error. -/
def goParseFloatLit (s : List Char) : Option DecLit := do
  let (neg, r1) := parseSign s
  let ((ip, fp, fl), r2) ← parseMantissa r1
  let (e, r3) ← parseExp r2
  if r3.isEmpty then some ⟨neg, ip, fp, fl, e⟩ else none

/-- Model of strconv.ParseFloat on the decimal syntax. Returns the exact
rational value of the literal, or none on a syntax error (Go then
returns value 0 together with the error). The special forms inf and
nan, hexadecimal literals and digit underscores accepted by Go, and the
rounding of the result to float32, are outside the modelled subset; no
behaviour settled here depends on them. -/
def goParseFloat (s : List Char) : Option ℚ :=
  (goParseFloatLit s).map DecLit.toRat

/-- Model of strings.TrimSuffix: removes one trailing copy of the suffix
when present, otherwise returns the input unchanged. -/
def trimSuffix (s suff : List Char) : List Char :=
  if suff.isSuffixOf s then s.take (s.length - suff.length) else s

/-- The uptime gauge value computed on source lines 278 to 279: trim one
trailing d, parse the remainder as a float, and use value 0 when the
parse fails (the error is discarded by the blank identifier; on a syntax
error Go ParseFloat returns value 0). -/
def uptimeValue (u : String) : ℚ :=
  (goParseFloat (trimSuffix u.data ['d'])).getD 0

/-- Repeatedly scales a positive fraction n over d into the interval
from 1 inclusive to 10 exclusive, returning the scaled numerator and
denominator together with the decimal exponent taken out. Fuel bounds
the recursion. -/
def normExp : Nat → Nat → Nat → Nat × Nat × Int
  | 0, n, d => (n, d, 0)
  | fuel + 1, n, d =>
    if n < d then
      let (n2, d2, e) := normExp fuel (n * 10) d
      (n2, d2, e - 1)
    else if 10 * d ≤ n then
      let (n2, d2, e) := normExp fuel n (d * 10)
      (n2, d2, e + 1)
    else (n, d, 0)

/-- Decimal digits of the fraction n over d, most significant first,
produced by integer division and stopping when the remainder reaches
zero. Fuel bounds the recursion. -/
def mantissaDigits : Nat → Nat → Nat → List Nat
  | 0, _, _ => []
  | fuel + 1, n, d =>
    if n = 0 then []
    else n / d :: mantissaDigits fuel (n % d * 10) d

/-- ASCII character of a digit value. -/
def digitChar (d : Nat) : Char := Char.ofNat (48 + d)

/-- Exponent suffix of the E format: sign and at least two digits. -/
def expStr (e : Int) : String :=
  let a := e.natAbs
  let ds := toString a
  "E" ++ (if e < 0 then "-" else "+") ++ (if a < 10 then "0" ++ ds else ds)

/-- Model of strconv.FormatFloat with format E and precision -1 on the
exact rational value: sign, mantissa digits with the decimal point after
the first digit (omitted when a single digit suffices), then E, the
exponent sign and the exponent padded to at least two digits. Exact on
values with a terminating decimal expansion and decimal exponent of
magnitude below 400, which covers every float32; the shortest round trip
rounding Go applies at bitSize 32 is abstracted to the exact value. -/
def FormatFloatE (q : ℚ) : String :=
  if q = 0 then "0E+00"
  else
    let sgn := if q < 0 then "-" else ""
    let (n, d, e) := normExp 400 q.num.natAbs q.den
    match mantissaDigits 200 n d with
    | [] => sgn ++ "0" ++ expStr e
    | [d0] => sgn ++ String.mk [digitChar d0] ++ expStr e
    | d0 :: ds => sgn ++ String.mk [digitChar d0] ++ "." ++ String.mk (ds.map digitChar) ++ expStr e

/-- One emitted metric sample: its descriptor, gauge value and the label
values in the order they are passed to MustNewConstMetric. -/
structure Metric where
  desc : Desc
  value : ℚ
  labels : List String
deriving DecidableEq, Repr

/-- Outcome of reading and decoding a response body: ioutil.ReadAll may
fail, then json.Unmarshal may fail, else the decoded value is available.
The standard library JSON decoder itself is an environment effect, so a
body is modelled by its decode outcome. -/
inductive ReadOutcome (α : Type) where
  | readErr (e : String)
  | decodeErr (e : String)
  | ok (v : α)
deriving DecidableEq, Repr

/-- Outcome of one http.Get: a transport error, or a response carrying a
status code and a body. -/
inductive FetchOutcome (α : Type) where
  | netErr (e : String)
  | resp (statusCode : Nat) (body : ReadOutcome α)
deriving DecidableEq, Repr

/-- The three upstream endpoints hit by Collect, in source order. -/
inductive Stage where
  | cluster
  | info
  | query
deriving DecidableEq, Repr

/-- The environment of one Collect invocation: the outcome each of the
three upstream GETs would produce. -/
structure Upstream where
  cluster : FetchOutcome ClusterExporter
  info : FetchOutcome InfoExporter
  query : FetchOutcome (List Query)
deriving DecidableEq, Repr

/-- Log severities of the prometheus common log package; Collect only
ever calls Errorf. -/
inductive LogLevel where
  | error
  | warn
  | information
deriving DecidableEq, Repr

/-- One log line: severity and the formatted message. -/
structure LogEntry where
  level : LogLevel
  message : String
deriving DecidableEq, Repr

/-- Rendering of log.Errorf with verb %s applied to the err variable: a
non nil error prints its message; a nil error prints the fmt placeholder
for a nil value. In the non 200 status branches of the source the err
variable is nil, because http.Get just succeeded. -/
def errFmt : Option String → String
  | some e => e
  | none => "%!s(<nil>)"

/-- One stage of Collect (the same four checks are made for cluster,
info and query): a transport error logs err and aborts; a status other
than 200 logs the nil err and aborts; a body read error logs err and
aborts; a decode error logs err and aborts; otherwise the decoded value
is produced. The error side carries the Option String that the source
would pass to log.Errorf. -/
def fetchStage {α : Type} : FetchOutcome α → Except (Option String) α
  | .netErr e => .error (some e)
  | .resp code body =>
    if code = 200 then
      match body with
      | .readErr e => .error (some e)
      | .decodeErr e => .error (some e)
      | .ok v => .ok v
    else .error none

/-- Whether a stage passes all four checks. -/
def stageOk {α : Type} (f : FetchOutcome α) : Bool :=
  match fetchStage f with
  | .ok _ => true
  | .error _ => false

/-- Result of one Collect invocation: the metric samples sent on the
channel in order, the log lines produced, and the stages whose HTTP GET
was actually issued, in order. -/
structure CollectResult where
  metrics : List Metric
  logs : List LogEntry
  gets : List Stage
deriving DecidableEq, Repr

/-- The nine cluster gauges emitted on source lines 269 to 277: each
field of the decoded cluster snapshot passed through unchanged, with the
hostname as the only label. -/
def clusterMetrics (host : String) (c : ClusterExporter) : List Metric :=
  [⟨runningQueries, c.RunningQueries, [host]⟩,
   ⟨blockedQueries, c.BlockedQueries, [host]⟩,
   ⟨queuedQueries, c.QueuedQueries, [host]⟩,
   ⟨activeWorkers, c.ActiveWorkers, [host]⟩,
   ⟨runningDrivers, c.RunningDrivers, [host]⟩,
   ⟨reservedMemory, c.ReservedMemory, [host]⟩,
   ⟨totalInputRows, c.TotalInputRows, [host]⟩,
   ⟨totalInputBytes, c.TotalInputBytes, [host]⟩,
   ⟨totalCpuTimeSecs, c.TotalCpuTimeSecs, [host]⟩]

/-- The uptime gauge emitted on source lines 278 to 279. -/
def uptimeMetric (host : String) (i : InfoExporter) : Metric :=
  ⟨uptime, uptimeValue i.Uptime, [host]⟩

/-- The 14 label values built for one query record on source lines 282
to 297, in order: hostname, queryId, state, FormatBool of scheduled, the
query text verbatim, the string stat fields verbatim, Itoa of
totalDrivers, and cumulativeUserMemory through FormatFloat E. -/
def queryLabels (host : String) (v : Query) : List String :=
  [host, v.QueryId, v.State, FormatBool v.Scheduled, v.Query,
   v.QueryStats.QueuedTime, v.QueryStats.ElapsedTime,
   v.QueryStats.ExecutionTime, Itoa v.QueryStats.TotalDrivers,
   v.QueryStats.RawInputDataSize,
   FormatFloatE v.QueryStats.CumulativeUserMemory,
   v.QueryStats.PeakUserMemoryReservation, v.QueryStats.TotalCpuTime,
   v.QueryStats.TotalScheduledTime]

/-- The per query gauge emitted on source line 298: value is
cumulativeUserMemory, labels as above. -/
def queryMetric (host : String) (v : Query) : Metric :=
  ⟨querys, v.QueryStats.CumulativeUserMemory, queryLabels host v⟩

/-- The Collect method (source lines 196 to 300): the three stages run
in fixed order cluster, info, query; the first failing check logs one
error line and returns with nothing emitted and no later GET issued;
when all three stages pass, the nine cluster gauges, the uptime gauge
and one gauge per query record are emitted, in that order. The hostname
argument is the package level hostname resolved once at startup. -/
def Collect (host : String) (u : Upstream) : CollectResult :=
  match fetchStage u.cluster with
  | .error e => ⟨[], [⟨LogLevel.error, errFmt e⟩], [Stage.cluster]⟩
  | .ok c =>
    match fetchStage u.info with
    | .error e => ⟨[], [⟨LogLevel.error, errFmt e⟩], [Stage.cluster, Stage.info]⟩
    | .ok i =>
      match fetchStage u.query with
      | .error e =>
        ⟨[], [⟨LogLevel.error, errFmt e⟩],
         [Stage.cluster, Stage.info, Stage.query]⟩
      | .ok qs =>
        ⟨clusterMetrics host c ++ [uptimeMetric host i] ++ qs.map (queryMetric host),
         [], [Stage.cluster, Stage.info, Stage.query]⟩

/-- An upstream whose three stages all succeed with the given decoded
values. -/
def okUpstream (c : ClusterExporter) (i : InfoExporter) (qs : List Query) : Upstream :=
  ⟨FetchOutcome.resp 200 (ReadOutcome.ok c),
   FetchOutcome.resp 200 (ReadOutcome.ok i),
   FetchOutcome.resp 200 (ReadOutcome.ok qs)⟩

/-- Sample decoded cluster snapshot used in concrete instances. -/
def sampleCluster : ClusterExporter := ⟨1, 2, 3, 4, 5, 6, 7, 8, 9⟩

/-- Sample decoded info snapshot with a ten day uptime string. -/
def sampleInfo : InfoExporter := ⟨⟨"0.208"⟩, "production", true, false, "10d"⟩

/-- Sample decoded info snapshot whose uptime string does not parse
after trimming, because its unit is hours. -/
def sampleInfoBadUptime : InfoExporter := ⟨⟨"0.208"⟩, "production", true, false, "3h"⟩

/-- Upstream where all three stages succeed, with an empty query list. -/
def uOk : Upstream := okUpstream sampleCluster sampleInfo []

/-- Upstream whose cluster GET fails with a transport error. -/
def uNetErr : Upstream :=
  ⟨FetchOutcome.netErr "connection refused",
   FetchOutcome.resp 200 (ReadOutcome.ok sampleInfo),
   FetchOutcome.resp 200 (ReadOutcome.ok [])⟩

/-- Upstream whose cluster GET answers with HTTP status 500. -/
def u500 : Upstream :=
  ⟨FetchOutcome.resp 500 (ReadOutcome.ok sampleCluster),
   FetchOutcome.resp 200 (ReadOutcome.ok sampleInfo),
   FetchOutcome.resp 200 (ReadOutcome.ok [])⟩

/-- Upstream whose cluster body read fails. -/
def uReadErr : Upstream :=
  ⟨FetchOutcome.resp 200 (ReadOutcome.readErr "unexpected EOF"),
   FetchOutcome.resp 200 (ReadOutcome.ok sampleInfo),
   FetchOutcome.resp 200 (ReadOutcome.ok [])⟩

/-- Upstream whose cluster body does not decode as the expected JSON. -/
def uDecodeErr : Upstream :=
  ⟨FetchOutcome.resp 200 (ReadOutcome.decodeErr "invalid character"),
   FetchOutcome.resp 200 (ReadOutcome.ok sampleInfo),
   FetchOutcome.resp 200 (ReadOutcome.ok [])⟩

/-- Claim C1: if any of the three stages fails any of its checks, the
Collect invocation emits zero metric samples and no later stage GET is
attempted (the list of issued GETs stops at the failing stage); and
samples are emitted only when all three stages succeed. -/
theorem C1_fail_fast (host : String) (u : Upstream) :
    (stageOk u.cluster = false →
      (Collect host u).metrics = [] ∧ (Collect host u).gets = [Stage.cluster]) ∧
    (stageOk u.cluster = true → stageOk u.info = false →
      (Collect host u).metrics = [] ∧
      (Collect host u).gets = [Stage.cluster, Stage.info]) ∧
    (stageOk u.cluster = true → stageOk u.info = true → stageOk u.query = false →
      (Collect host u).metrics = [] ∧
      (Collect host u).gets = [Stage.cluster, Stage.info, Stage.query]) ∧
    ((Collect host u).metrics ≠ [] →
      stageOk u.cluster = true ∧ stageOk u.info = true ∧ stageOk u.query = true) := by
  obtain ⟨fc, fi, fq⟩ := u
  rcases hc : fetchStage fc with e | c <;>
    rcases hi : fetchStage fi with e2 | i <;>
      rcases hq : fetchStage fq with e3 | qs <;>
        simp [Collect, stageOk, hc, hi, hq]

/-- Witness for C1 at a concrete upstream whose cluster GET has a
transport failure. -/
theorem C1_fail_fast_witness :
    (Collect "host1" uNetErr).metrics = [] ∧
    (Collect "host1" uNetErr).gets = [Stage.cluster] :=
  (C1_fail_fast "host1" uNetErr).1 (by decide)

/-- Claim C2: on a successful Collect, each of the nine scalar cluster
fields is emitted as the value of its gauge unchanged, each sample
carrying exactly the one label host. -/
theorem C2_cluster_identity (host : String) (c : ClusterExporter)
    (i : InfoExporter) (qs : List Query) :
    (Collect host (okUpstream c i qs)).metrics.take 9 =
      [⟨runningQueries, c.RunningQueries, [host]⟩,
       ⟨blockedQueries, c.BlockedQueries, [host]⟩,
       ⟨queuedQueries, c.QueuedQueries, [host]⟩,
       ⟨activeWorkers, c.ActiveWorkers, [host]⟩,
       ⟨runningDrivers, c.RunningDrivers, [host]⟩,
       ⟨reservedMemory, c.ReservedMemory, [host]⟩,
       ⟨totalInputRows, c.TotalInputRows, [host]⟩,
       ⟨totalInputBytes, c.TotalInputBytes, [host]⟩,
       ⟨totalCpuTimeSecs, c.TotalCpuTimeSecs, [host]⟩] := rfl

/-- Claim C3: each decoded query record yields exactly one per query
gauge whose value is cumulativeUserMemory, with the 14 labels in source
order; scheduled is rendered true or false, totalDrivers in decimal,
the query text verbatim, and cumulativeUserMemory in scientific
notation; concretely, scheduled true gives label true, totalDrivers 7
gives label 7, and 123.5 is rendered 1.235E+02. -/
theorem C3_query_metric (host : String) (c : ClusterExporter)
    (i : InfoExporter) (qs : List Query) :
    ((Collect host (okUpstream c i qs)).metrics.drop 10 =
      qs.map (fun v =>
        ⟨querys, v.QueryStats.CumulativeUserMemory,
         [host, v.QueryId, v.State, FormatBool v.Scheduled, v.Query,
          v.QueryStats.QueuedTime, v.QueryStats.ElapsedTime,
          v.QueryStats.ExecutionTime, Itoa v.QueryStats.TotalDrivers,
          v.QueryStats.RawInputDataSize,
          FormatFloatE v.QueryStats.CumulativeUserMemory,
          v.QueryStats.PeakUserMemoryReservation, v.QueryStats.TotalCpuTime,
          v.QueryStats.TotalScheduledTime]⟩)) ∧
    (∀ v : Query, (queryLabels host v).length = 14) ∧
    FormatBool true = "true" ∧ FormatBool false = "false" ∧
    Itoa 7 = "7" ∧ FormatFloatE (247 / 2) = "1.235E+02" := by
  refine ⟨rfl, fun _ => rfl, rfl, rfl, rfl, ?_⟩
  have h : (247 / 2 : ℚ) = Rat.divInt 247 2 := by norm_num [Rat.divInt_eq_div]
  rw [h]
  decide

/-- Claim C4: the uptime gauge is the tenth sample of a successful
Collect and its value derives from the info uptime string by stripping
one trailing d and parsing the remainder; concretely 10d gives 10,
0.5d gives one half, and 5.2d gives 26 fifths. -/
theorem C4_uptime_gauge (host : String) (c : ClusterExporter)
    (i : InfoExporter) (qs : List Query) :
    (Collect host (okUpstream c i qs)).metrics.get? 9 =
      some ⟨uptime, uptimeValue i.Uptime, [host]⟩ ∧
    uptimeValue "10d" = 10 ∧ uptimeValue "0.5d" = 1 / 2 ∧
    uptimeValue "5.2d" = 26 / 5 := by
  refine ⟨rfl, by decide, ?_, ?_⟩
  · norm_num [uptimeValue, Rat.divInt_eq_div, DecLit.toRat,
      show goParseFloat (trimSuffix ("0.5d").data ['d']) =
        some (DecLit.toRat ⟨false, 0, 5, 1, 0⟩) from rfl]
  · norm_num [uptimeValue, Rat.divInt_eq_div, DecLit.toRat,
      show goParseFloat (trimSuffix ("5.2d").data ['d']) =
        some (DecLit.toRat ⟨false, 5, 2, 1, 0⟩) from rfl]

/-- Claim C5: when the query list decodes to an empty array and the
other stages succeed, Collect emits no per query gauge and exactly the
nine cluster gauges followed by the uptime gauge. -/
theorem C5_empty_query_list (host : String) (c : ClusterExporter)
    (i : InfoExporter) :
    (Collect host (okUpstream c i [])).metrics =
      clusterMetrics host c ++ [uptimeMetric host i] ∧
    (Collect host (okUpstream c i [])).metrics.countP
      (fun m => decide (m.desc = querys)) = 0 ∧
    (Collect host (okUpstream c i [])).metrics.length = 10 :=
  ⟨rfl, rfl, rfl⟩

/-- Claim C6, evaluated at the failing input: a transport error, a body
read error and a decode error each log their underlying cause at error
severity and abort with zero metrics, but a non success HTTP status
aborts with an error severity log whose message is the nil err value
rendered by the fmt package, not the status cause. -/
theorem C6_error_logging :
    (Collect "host1" uNetErr).metrics = [] ∧
    (Collect "host1" uNetErr).logs = [⟨LogLevel.error, "connection refused"⟩] ∧
    (Collect "host1" uReadErr).metrics = [] ∧
    (Collect "host1" uReadErr).logs = [⟨LogLevel.error, "unexpected EOF"⟩] ∧
    (Collect "host1" uDecodeErr).metrics = [] ∧
    (Collect "host1" uDecodeErr).logs = [⟨LogLevel.error, "invalid character"⟩] ∧
    (Collect "host1" u500).metrics = [] ∧
    (Collect "host1" u500).logs = [⟨LogLevel.error, "%!s(<nil>)"⟩] :=
  ⟨rfl, rfl, rfl, rfl, rfl, rfl, rfl, rfl⟩

/-- Claim C7: Describe advertises exactly the fixed set of 11
descriptors, in source order, whose full names are the namespace prefix
joined by an underscore with the eleven metric name suffixes. -/
theorem C7_describe_descriptors :
    Describe = [runningQueries, blockedQueries, queuedQueries,
      activeWorkers, runningDrivers, reservedMemory, totalInputRows,
      totalInputBytes, totalCpuTimeSecs, uptime, querys] ∧
    Describe.length = 11 ∧
    Describe.map Desc.fqName =
      ["presto_cluster_running_queries", "presto_cluster_blocked_queries",
       "presto_cluster_queued_queries", "presto_cluster_active_workers",
       "presto_cluster_running_drivers", "presto_cluster_reserved_memory",
       "presto_cluster_total_input_rows", "presto_cluster_total_input_bytes",
       "presto_cluster_total_cpu_time_secs", "presto_cluster_uptime",
       "presto_cluster_querys"] :=
  ⟨rfl, rfl, by decide⟩

/-- Claim C8: every metric sample emitted by any Collect invocation
carries the process wide hostname as its first label value; the host
argument models the package level hostname resolved once at startup. -/
theorem C8_hostname_label (host : String) (u : Upstream) :
    ∀ m ∈ (Collect host u).metrics, m.labels.head? = some host := by
  obtain ⟨fc, fi, fq⟩ := u
  rcases hc : fetchStage fc with e | c
  · simp [Collect, hc]
  rcases hi : fetchStage fi with e2 | i
  · simp [Collect, hc, hi]
  rcases hq : fetchStage fq with e3 | qs
  · simp [Collect, hc, hi, hq]
  intro m hm
  simp only [Collect, hc, hi, hq, clusterMetrics, uptimeMetric,
    List.mem_append, List.mem_cons, List.mem_singleton, List.mem_map,
    List.not_mem_nil, or_false, false_or] at hm
  rcases hm with (hm | rfl) | ⟨v, hv, rfl⟩
  · rcases hm with rfl | rfl | rfl | rfl | rfl | rfl | rfl | rfl | rfl <;> rfl
  · rfl
  · rfl

/-- Witness for C8 at a concrete upstream and the first emitted sample. -/
theorem C8_hostname_label_witness :
    (Metric.mk runningQueries 1 ["host1"]).labels.head? = some "host1" :=
  C8_hostname_label "host1" uOk (Metric.mk runningQueries 1 ["host1"]) (by decide)

/-- Claim C9: Collect is a function of the hostname and the upstream
responses alone; two invocations given identical responses at the three
endpoints produce identical results, in particular identical sample
sets, so no state leaks between invocations. -/
theorem C9_deterministic (host : String) (u1 u2 : Upstream)
    (hc : u1.cluster = u2.cluster) (hi : u1.info = u2.info)
    (hq : u1.query = u2.query) :
    Collect host u1 = Collect host u2 ∧
    (Collect host u1).metrics = (Collect host u2).metrics := by
  obtain ⟨a1, b1, c1⟩ := u1
  obtain ⟨a2, b2, c2⟩ := u2
  have h1 : a1 = a2 := hc
  have h2 : b1 = b2 := hi
  have h3 : c1 = c2 := hq
  subst h1
  subst h2
  subst h3
  exact ⟨rfl, rfl⟩

/-- Witness for C9 at a concrete pair of identical upstreams. -/
theorem C9_deterministic_witness :
    Collect "host1" uOk = Collect "host1" uOk ∧
    (Collect "host1" uOk).metrics = (Collect "host1" uOk).metrics :=
  C9_deterministic "host1" uOk uOk rfl rfl rfl

/-- Claim C10: when the uptime string fails to parse after trimming one
trailing d, the error is discarded silently (no log line), the uptime
gauge is still emitted with value 0, and the rest of the scrape
completes normally. -/
theorem C10_uptime_parse_failure (host : String) (c : ClusterExporter)
    (i : InfoExporter) (qs : List Query)
    (hfail : goParseFloat (trimSuffix i.Uptime.data ['d']) = none) :
    (Collect host (okUpstream c i qs)).metrics =
      clusterMetrics host c ++ [Metric.mk uptime 0 [host]] ++
        qs.map (queryMetric host) ∧
    (Collect host (okUpstream c i qs)).logs = [] := by
  have h0 : uptimeValue i.Uptime = 0 := by
    simp only [uptimeValue, hfail, Option.getD_none]
  refine ⟨?_, rfl⟩
  show clusterMetrics host c ++ [uptimeMetric host i] ++ qs.map (queryMetric host) = _
  simp only [uptimeMetric, h0]

/-- Witness for C10 at a concrete info snapshot whose uptime string has
an hour unit. -/
theorem C10_uptime_parse_failure_witness :
    (Collect "host1" (okUpstream sampleCluster sampleInfoBadUptime [])).metrics =
      clusterMetrics "host1" sampleCluster ++ [Metric.mk uptime 0 ["host1"]] ++
        List.map (queryMetric "host1") [] ∧
    (Collect "host1" (okUpstream sampleCluster sampleInfoBadUptime [])).logs = [] :=
  C10_uptime_parse_failure "host1" sampleCluster sampleInfoBadUptime [] (by decide)

end PrestoExporter
